import Mathlib

/-!
Verification of the `AlgokitComposer` atomic transaction group composer
(`src/composer.ts`) against its natural-language specification.

The TypeScript source is shallowly embedded: each per-kind transaction
builder, the common build step, the ABI method-call expander, the group
assembler (`buildGroup`) and the execution driver (`execute`) become
executable Lean functions. Fallible code returns `Except String`, carrying
the source's error messages. JavaScript truthiness (`if (params.x)`),
`??` versus `||`, and `typeof` are modelled explicitly where the source
relies on them.

External collaborators are modelled as follows:
* `algosdk` transaction constructors (`makePaymentTxnWithSuggestedParamsFromObject`
  and friends) initialise a `Transaction` record from the suggested
  parameters, exactly as the sdk does for the fields the composer later
  reads or overwrites;
* `algosdk.AtomicTransactionComposer` is modelled by `AtcState` with its
  BUILDING/BUILT status machine: `addTransaction` rejects a non-BUILDING
  composer, `buildGroup` freezes the group and assigns the group id;
* quantities the sdk computes opaquely (transaction size estimation,
  transaction ids, group ids, ABI value encoding, method selectors) are
  fields of an `Env` record of arbitrary functions, so theorems quantify
  over them and witnesses instantiate them concretely.

The network is modelled as a stream of `SuggestedParams` responses; the
group assembler records the fetch events it performs so that ordering of
failures relative to network calls is observable.
-/

namespace Composer

/-- Byte strings (`Uint8Array` in the source) as lists of byte values. -/
abbrev Bytes := List Nat

/-- A transaction signer. The source passes opaque signer functions around
and only ever compares/attaches them, so an atom suffices. -/
abbrev Signer := Nat

/-- `algosdk.SuggestedParams`: the network parameters fetched once per
group build. -/
structure SuggestedParams where
  /-- fee per byte suggested by the network -/
  fee : Nat
  firstRound : Nat
  lastRound : Nat
  genesisID : String := ""
  deriving Repr, DecidableEq

/-- The variant-specific payload of a concrete (already built) transaction,
as produced by the `algosdk` transaction constructors the composer calls. -/
inductive TxnPayload where
  | pay (receiver : String) (amount : Nat)
  | axfer (assetIndex : Nat) (receiver : String) (amount : Nat)
      (closeRemainderTo : Option String) (revocationTarget : Option String)
  | acfgCreate (total : Nat) (decimals : Nat) (defaultFrozen : Bool)
  | acfgConfig (assetIndex : Nat) (manager reserve freeze clawback : Option String)
  | acfgDestroy (assetIndex : Nat)
  | afrz (assetIndex : Nat) (freezeTarget : String) (freezeState : Bool)
  | applCreate (onComplete : Nat) (approvalProgram clearProgram : Bytes)
      (appArgs : List Bytes) (numLocalInts numLocalByteSlices numGlobalInts numGlobalByteSlices : Nat)
  | applCall (appIndex : Nat) (onComplete : Nat) (appArgs : List Bytes)
  | applMethodCall (appIndex : Nat) (onComplete : Nat) (methodName : String) (appArgs : List Bytes)
  | keyregOnline (voteKey selectionKey : Option Bytes) (voteFirst voteLast voteKeyDilution : Nat)
      (stateProofKey : Option Bytes)
  | keyregOffline
  deriving Repr, DecidableEq

/-- A concrete `algosdk.Transaction` restricted to the fields the composer
reads or writes. -/
structure Transaction where
  sender : String
  payload : TxnPayload
  fee : Nat
  firstRound : Nat
  lastRound : Nat
  note : Option Bytes := none
  lease : Option Bytes := none
  rekeyTo : Option String := none
  group : Option Nat := none
  deriving Repr, DecidableEq

/-- `algosdk.TransactionWithSigner`. -/
structure TransactionWithSigner where
  txn : Transaction
  signer : Signer
  deriving Repr, DecidableEq

/-- One declared argument of an ABI method (only its type string matters
to the composer). -/
structure ABIArgSpec where
  type : String
  deriving Repr, DecidableEq

/-- `algosdk.ABIMethod`, restricted to what the composer consumes. -/
structure ABIMethod where
  name : String
  args : List ABIArgSpec
  deriving Repr, DecidableEq

/-- Status machine of `algosdk.AtomicTransactionComposer`. -/
inductive AtcStatus where
  | building
  | built
  deriving Repr, DecidableEq

/-- State of an `algosdk.AtomicTransactionComposer`: its transaction list,
its index-keyed method-call map, and its build status. -/
structure AtcState where
  transactions : List TransactionWithSigner := []
  methodCalls : List (Nat × ABIMethod) := []
  status : AtcStatus := .building
  deriving Repr, DecidableEq

/-- Quantities computed opaquely by `algosdk`, abstracted as arbitrary
functions: theorems hold for every `Env`, witnesses pick a concrete one. -/
structure Env where
  /-- `Transaction.estimateSize()` -/
  estimateSize : Transaction → Nat
  /-- the composer's injected `getSigner` collaborator -/
  getSigner : String → Signer
  /-- `Transaction.txID()` -/
  txID : Transaction → String
  /-- group id computed from the final transaction list (`assignGroupID`) -/
  computeGroupID : List Transaction → Nat
  /-- ABI encoding of a value argument -/
  abiEncode : Bytes → Bytes
  /-- the 4-byte method selector -/
  methodSelector : ABIMethod → Bytes

/-- A network interaction performed by the composer. -/
inductive NetEvent where
  | fetchParams
  deriving Repr, DecidableEq

/-- `algosdk.ALGORAND_MIN_TX_FEE`. -/
def ALGORAND_MIN_TX_FEE : Nat := 1000

/-- `AlgokitComposer.defaultValidityWindow` (instance field, initialised to
10 and never reassigned in the source). -/
def defaultValidityWindow : Nat := 10

/-- `MAX_GROUP_SIZE` of the atomic transaction composer. -/
def MAX_GROUP_SIZE : Nat := 16

/-- `CommonTxnParams`: fields present on every transaction intent. -/
structure CommonTxnParams where
  sender : String
  signer : Option Signer := none
  rekeyTo : Option String := none
  note : Option Bytes := none
  lease : Option Bytes := none
  flatFee : Option Nat := none
  extraFee : Option Nat := none
  maxFee : Option Nat := none
  validityWindow : Option Nat := none
  firstValidRound : Option Nat := none
  lastValidRound : Option Nat := none
  deriving Repr, DecidableEq

/-- `PayTxnParams`. The source field `to` is a Lean keyword, hence the
quoted name. -/
structure PayTxnParams extends CommonTxnParams where
  «to» : String
  amount : Nat
  deriving Repr, DecidableEq

/-- `AssetCreateParams`. -/
structure AssetCreateParams extends CommonTxnParams where
  total : Nat
  decimals : Option Nat := none
  defaultFrozen : Option Bool := none
  manager : Option String := none
  reserve : Option String := none
  freeze : Option String := none
  clawback : Option String := none
  unitName : Option String := none
  assetName : Option String := none
  url : Option String := none
  metadataHash : Option Bytes := none
  deriving Repr, DecidableEq

/-- `AssetConfigParams`. -/
structure AssetConfigParams extends CommonTxnParams where
  assetID : Nat
  manager : Option String := none
  reserve : Option String := none
  freeze : Option String := none
  clawback : Option String := none
  deriving Repr, DecidableEq

/-- `AssetFreezeParams`. -/
structure AssetFreezeParams extends CommonTxnParams where
  assetID : Nat
  account : String
  frozen : Bool
  deriving Repr, DecidableEq

/-- `AssetDestroyParams`. -/
structure AssetDestroyParams extends CommonTxnParams where
  assetID : Nat
  deriving Repr, DecidableEq

/-- `KeyRegParams`. -/
structure KeyRegParams extends CommonTxnParams where
  voteKey : Option Bytes := none
  selectionKey : Option Bytes := none
  voteFirst : Nat
  voteLast : Nat
  voteKeyDilution : Nat
  nonParticipation : Bool
  stateProofKey : Option Bytes := none
  deriving Repr, DecidableEq

/-- `AssetTransferParams`. -/
structure AssetTransferParams extends CommonTxnParams where
  assetID : Nat
  amount : Nat
  «to» : String
  clawbackTarget : Option String := none
  closeAssetTo : Option String := none
  deriving Repr, DecidableEq

/-- `AssetOptInParams`. -/
structure AssetOptInParams extends CommonTxnParams where
  assetID : Nat
  deriving Repr, DecidableEq

/-- The immutable state schema of an application call. -/
structure AppSchema where
  globalUints : Nat
  globalByteSlices : Nat
  localUints : Nat
  localByteSlices : Nat
  deriving Repr, DecidableEq

/-- `AppCallParams`. -/
structure AppCallParams extends CommonTxnParams where
  onComplete : Option Nat := none
  appID : Option Nat := none
  approvalProgram : Option Bytes := none
  clearProgram : Option Bytes := none
  schema : Option AppSchema := none
  args : Option (List Bytes) := none
  accountReferences : Option (List String) := none
  appReferences : Option (List Nat) := none
  assetReferences : Option (List Nat) := none
  extraPages : Option Nat := none
  deriving Repr, DecidableEq

mutual

/-- The `Txn` tagged union of pending transaction intents. The
`methodCall` variant carries its `MethodCallParams` fields inline because
its argument list may recursively contain further intents. Foreign
reference fields of `MethodCallParams` are forwarded opaquely to the sdk
by the source and are omitted here as unobservable. -/
inductive Txn where
  | pay (p : PayTxnParams)
  | assetCreate (p : AssetCreateParams)
  | assetConfig (p : AssetConfigParams)
  | assetFreeze (p : AssetFreezeParams)
  | assetDestroy (p : AssetDestroyParams)
  | assetTransfer (p : AssetTransferParams)
  | assetOptIn (p : AssetOptInParams)
  | appCall (p : AppCallParams)
  | keyReg (p : KeyRegParams)
  | txnWithSigner (txn : Transaction) (signer : Signer)
  | atcTxn (a : AtcState)
  | methodCall (common : CommonTxnParams) (appID : Nat) (onComplete : Option Nat)
      (method : ABIMethod) (args : Option (List JsVal))

/-- A runtime JavaScript value appearing in a method call's `args` list:
either a plain ABI value or a transaction intent. The constructors record
what `typeof` observes about the value. -/
inductive JsVal where
  | bool (b : Bool)
  | num (n : Nat)
  | bigint (i : Int)
  | str (s : String)
  | bytes (bs : Bytes)
  | arr (xs : List JsVal)
  | txnArg (t : Txn)

end

/-- An `algosdk.ABIArgument` accumulated by the method-call expander:
either a plain ABI value or a transaction with signer. -/
inductive ABIArgument where
  | value (v : JsVal)
  | txnWithSigner (t : TransactionWithSigner)

/-- The composer's `txnMethodMap : Map<string, ABIMethod>` as an
association list. -/
abbrev MState := List (String × ABIMethod)

/-- `Map.set` on the txid-keyed method map. -/
def mapSetStr (l : MState) (k : String) (v : ABIMethod) : MState :=
  if l.any (fun p => p.1 = k) then l.map (fun p => if p.1 = k then (k, v) else p)
  else l ++ [(k, v)]

/-- `Map.get` on the txid-keyed method map. -/
def mapGetStr (l : MState) (k : String) : Option ABIMethod :=
  (l.find? (fun p => p.1 = k)).map (fun p => p.2)

/-- `Map.get` on the index-keyed method-call map of an atc. -/
def mapGetNat (l : List (Nat × ABIMethod)) (k : Nat) : Option ABIMethod :=
  (l.find? (fun p => p.1 = k)).map (fun p => p.2)

/-- JavaScript's `typeof` operator on the modelled value universe: a
`Uint8Array` and an array are objects. -/
def jsTypeof : JsVal → String
  | .bool _ => "boolean"
  | .num _ => "number"
  | .bigint _ => "bigint"
  | .str _ => "string"
  | .bytes _ => "object"
  | .arr _ => "object"
  | .txnArg _ => "object"

mutual

/-- The `isAbiValue` predicate of `buildMethodCall`: an array is an ABI
value when empty or when all elements are; otherwise the value's `typeof`
string must be one of the listed names. -/
def isAbiValue : JsVal → Bool
  | .arr xs => xs.isEmpty || isAbiValueList xs
  | v => ["boolean", "number", "bigint", "string", "Uint8Array"].contains (jsTypeof v)

/-- `x.every(isAbiValue)` over an argument array. -/
def isAbiValueList : List JsVal → Bool
  | [] => true
  | x :: xs => isAbiValue x && isAbiValueList xs

end

/-- `Object.values(algosdk.ABITransactionType)`. -/
def abiTransactionTypes : List String :=
  ["txn", "pay", "keyreg", "acfg", "axfer", "afrz", "appl"]

/-- `method.txnCount()`: the method-call transaction itself plus its
transaction-typed declared arguments. -/
def methodTxnCount (m : ABIMethod) : Nat :=
  1 + (m.args.filter (fun a => abiTransactionTypes.contains a.type)).length

/-! ### The common build step (`commonTxnBuildStep`, composer.ts lines 290-321) -/

/-- `if (params.lease) txn.addLease(params.lease)` (a `Uint8Array` is
always truthy). -/
def applyLease (params : CommonTxnParams) (txn : Transaction) : Transaction :=
  match params.lease with
  | some l => { txn with lease := some l }
  | none => txn

/-- `if (params.rekeyTo) txn.addRekey(params.rekeyTo)` (the empty string
is falsy). -/
def applyRekey (params : CommonTxnParams) (txn : Transaction) : Transaction :=
  match params.rekeyTo with
  | some r => if r = "" then txn else { txn with rekeyTo := some r }
  | none => txn

/-- `if (params.note) txn.note = params.note`. -/
def applyNote (params : CommonTxnParams) (txn : Transaction) : Transaction :=
  match params.note with
  | some n => { txn with note := some n }
  | none => txn

/-- `if (params.firstValidRound) txn.firstRound = params.firstValidRound`
(a round of `0` is falsy and hence ignored). -/
def applyFirstValid (params : CommonTxnParams) (txn : Transaction) : Transaction :=
  match params.firstValidRound with
  | some fv => if fv = 0 then txn else { txn with firstRound := fv }
  | none => txn

/-- `if (params.lastValidRound) ... else txn.lastRound = txn.firstRound +
(params.validityWindow ?? this.defaultValidityWindow)`: a last round of
`0` is falsy and falls to the window branch; an explicit window of `0` is
honoured by `??`. -/
def applyLastValid (params : CommonTxnParams) (txn : Transaction) : Transaction :=
  match params.lastValidRound with
  | some lv =>
    if lv = 0 then
      { txn with lastRound := txn.firstRound + params.validityWindow.getD defaultValidityWindow }
    else { txn with lastRound := lv }
  | none =>
    { txn with lastRound := txn.firstRound + params.validityWindow.getD defaultValidityWindow }

/-- The field-setting prefix of `commonTxnBuildStep` (composer.ts lines
291-303), before any fee logic. -/
def setCommonFields (params : CommonTxnParams) (txn0 : Transaction) : Transaction :=
  applyLastValid params
    (applyFirstValid params (applyNote params (applyRekey params (applyLease params txn0))))

/-- `commonTxnBuildStep`: after setting the common fields, reject setting
both `flatFee` and `extraFee`; otherwise use the flat fee, or compute
`txn.estimateSize() * suggestedParams.fee || ALGORAND_MIN_TX_FEE` (the
minimum fee applies only when the product is `0`) and add a truthy
`extraFee`; finally enforce the `maxFee` ceiling. -/
def commonTxnBuildStep (env : Env) (params : CommonTxnParams) (txn0 : Transaction)
    (sp : SuggestedParams) : Except String Transaction :=
  let txn := setCommonFields params txn0
  if params.flatFee.isSome && params.extraFee.isSome then
    .error "Cannot set both flatFee and extraFee"
  else
    let txn :=
      match params.flatFee with
      | some f => { txn with fee := f }
      | none =>
        let base := env.estimateSize txn * sp.fee
        let fee0 := if base = 0 then ALGORAND_MIN_TX_FEE else base
        let fee1 := match params.extraFee with
          | some e => if e = 0 then fee0 else fee0 + e
          | none => fee0
        { txn with fee := fee1 }
    match params.maxFee with
    | some mf =>
      if txn.fee > mf then .error "Transaction fee is greater than maxFee"
      else .ok txn
    | none => .ok txn

/-! ### Per-kind transaction constructors (the `algosdk.make*` calls) -/

/-- `makePaymentTxnWithSuggestedParamsFromObject`. -/
def makePaymentTxn (p : PayTxnParams) (sp : SuggestedParams) : Transaction :=
  { sender := p.sender, payload := .pay p.«to» p.amount,
    fee := sp.fee, firstRound := sp.firstRound, lastRound := sp.lastRound }

/-- `makeAssetCreateTxnWithSuggestedParamsFromObject`, with the source's
defaults `decimals ?? 0` and `defaultFrozen ?? false`. -/
def makeAssetCreateTxn (p : AssetCreateParams) (sp : SuggestedParams) : Transaction :=
  { sender := p.sender,
    payload := .acfgCreate p.total (p.decimals.getD 0) (p.defaultFrozen.getD false),
    fee := sp.fee, firstRound := sp.firstRound, lastRound := sp.lastRound }

/-- `makeAssetConfigTxnWithSuggestedParamsFromObject`. -/
def makeAssetConfigTxn (p : AssetConfigParams) (sp : SuggestedParams) : Transaction :=
  { sender := p.sender,
    payload := .acfgConfig p.assetID p.manager p.reserve p.freeze p.clawback,
    fee := sp.fee, firstRound := sp.firstRound, lastRound := sp.lastRound }

/-- `makeAssetDestroyTxnWithSuggestedParamsFromObject`. -/
def makeAssetDestroyTxn (p : AssetDestroyParams) (sp : SuggestedParams) : Transaction :=
  { sender := p.sender, payload := .acfgDestroy p.assetID,
    fee := sp.fee, firstRound := sp.firstRound, lastRound := sp.lastRound }

/-- `makeAssetFreezeTxnWithSuggestedParamsFromObject`. -/
def makeAssetFreezeTxn (p : AssetFreezeParams) (sp : SuggestedParams) : Transaction :=
  { sender := p.sender, payload := .afrz p.assetID p.account p.frozen,
    fee := sp.fee, firstRound := sp.firstRound, lastRound := sp.lastRound }

/-- `makeAssetTransferTxnWithSuggestedParamsFromObject`. -/
def makeAssetTransferTxn (p : AssetTransferParams) (sp : SuggestedParams) : Transaction :=
  { sender := p.sender,
    payload := .axfer p.assetID p.«to» p.amount p.closeAssetTo p.clawbackTarget,
    fee := sp.fee, firstRound := sp.firstRound, lastRound := sp.lastRound }

/-- `makeApplicationCallTxnFromObject` with `appIndex: params.appID!`
(an absent app id reaches the sdk as `undefined` and encodes as `0`). -/
def makeApplicationCallTxn (p : AppCallParams) (sp : SuggestedParams) (onComplete : Nat)
    (appIndex : Nat) : Transaction :=
  { sender := p.sender, payload := .applCall appIndex onComplete (p.args.getD []),
    fee := sp.fee, firstRound := sp.firstRound, lastRound := sp.lastRound }

/-- `makeApplicationCreateTxnFromObject`, with the schema defaults
`params.schema?.x || 0`. -/
def makeApplicationCreateTxn (p : AppCallParams) (sp : SuggestedParams) (onComplete : Nat)
    (approvalProgram clearProgram : Bytes) : Transaction :=
  { sender := p.sender,
    payload := .applCreate onComplete approvalProgram clearProgram (p.args.getD [])
      ((p.schema.map AppSchema.localUints).getD 0)
      ((p.schema.map AppSchema.localByteSlices).getD 0)
      ((p.schema.map AppSchema.globalUints).getD 0)
      ((p.schema.map AppSchema.globalByteSlices).getD 0),
    fee := sp.fee, firstRound := sp.firstRound, lastRound := sp.lastRound }

/-- `makeKeyRegistrationTxnWithSuggestedParams` (the source also passes
`note` and `rekeyTo` directly into this constructor in both branches). -/
def makeKeyRegTxn (p : KeyRegParams) (sp : SuggestedParams) (offline : Bool) : Transaction :=
  { sender := p.sender,
    payload := if offline then .keyregOffline
      else .keyregOnline p.voteKey p.selectionKey p.voteFirst p.voteLast p.voteKeyDilution
        p.stateProofKey,
    fee := sp.fee, firstRound := sp.firstRound, lastRound := sp.lastRound,
    note := p.note, rekeyTo := p.rekeyTo }

/-! ### Per-kind builders (composer.ts lines 399-547) -/

/-- `buildPayment`. -/
def buildPayment (env : Env) (p : PayTxnParams) (sp : SuggestedParams) :
    Except String Transaction :=
  commonTxnBuildStep env p.toCommonTxnParams (makePaymentTxn p sp) sp

/-- `buildAssetCreate`. -/
def buildAssetCreate (env : Env) (p : AssetCreateParams) (sp : SuggestedParams) :
    Except String Transaction :=
  commonTxnBuildStep env p.toCommonTxnParams (makeAssetCreateTxn p sp) sp

/-- `buildAssetConfig`. -/
def buildAssetConfig (env : Env) (p : AssetConfigParams) (sp : SuggestedParams) :
    Except String Transaction :=
  commonTxnBuildStep env p.toCommonTxnParams (makeAssetConfigTxn p sp) sp

/-- `buildAssetDestroy`. -/
def buildAssetDestroy (env : Env) (p : AssetDestroyParams) (sp : SuggestedParams) :
    Except String Transaction :=
  commonTxnBuildStep env p.toCommonTxnParams (makeAssetDestroyTxn p sp) sp

/-- `buildAssetFreeze`. -/
def buildAssetFreeze (env : Env) (p : AssetFreezeParams) (sp : SuggestedParams) :
    Except String Transaction :=
  commonTxnBuildStep env p.toCommonTxnParams (makeAssetFreezeTxn p sp) sp

/-- `buildAssetTransfer`. -/
def buildAssetTransfer (env : Env) (p : AssetTransferParams) (sp : SuggestedParams) :
    Except String Transaction :=
  commonTxnBuildStep env p.toCommonTxnParams (makeAssetTransferTxn p sp) sp

/-- `buildKeyReg`: branches on `params.nonParticipation`. -/
def buildKeyReg (env : Env) (p : KeyRegParams) (sp : SuggestedParams) :
    Except String Transaction :=
  if p.nonParticipation then
    commonTxnBuildStep env p.toCommonTxnParams (makeKeyRegTxn p sp true) sp
  else
    commonTxnBuildStep env p.toCommonTxnParams (makeKeyRegTxn p sp false) sp

/-- `buildAppCall` (composer.ts lines 422-460). When `!params.appID`
(absent or zero) the source checks that both programs are present and
builds a creation transaction — but the assignment on the following line
sits outside the `if` block and unconditionally overwrites `txn` with a
plain application-call transaction, so the creation transaction is
discarded. The embedding reproduces this: `_createTxn` is computed and
dropped. -/
def buildAppCall (env : Env) (p : AppCallParams) (sp : SuggestedParams) :
    Except String Transaction :=
  let onComplete := p.onComplete.getD 0
  if p.appID.getD 0 = 0 then
    match p.approvalProgram, p.clearProgram with
    | some approval, some clear =>
      let _createTxn := makeApplicationCreateTxn p sp onComplete approval clear
      commonTxnBuildStep env p.toCommonTxnParams
        (makeApplicationCallTxn p sp onComplete (p.appID.getD 0)) sp
    | _, _ => .error "approvalProgram and clearProgram are required for application creation"
  else
    commonTxnBuildStep env p.toCommonTxnParams
      (makeApplicationCallTxn p sp onComplete (p.appID.getD 0)) sp

/-! ### The `algosdk.AtomicTransactionComposer` model -/

/-- `AtomicTransactionComposer.addTransaction`: only legal while BUILDING
and below the maximum group size. -/
def atcAddTransaction (a : AtcState) (ts : TransactionWithSigner) : Except String AtcState :=
  if a.status ≠ .building then
    .error "Cannot add transactions when composer status is not BUILDING"
  else if a.transactions.length = MAX_GROUP_SIZE then
    .error "Adding an additional transaction exceeds the maximum atomic group size"
  else .ok { a with transactions := a.transactions ++ [ts] }

/-- `assignGroupID`: stamp every transaction with the group id computed
from the whole list. -/
def assignGroupID (env : Env) (txns : List TransactionWithSigner) :
    List TransactionWithSigner :=
  let gid := env.computeGroupID (txns.map TransactionWithSigner.txn)
  txns.map (fun t => { t with txn := { t.txn with group := some gid } })

/-- `AtomicTransactionComposer.buildGroup`: while BUILDING, reject an
empty group, assign the group id when more than one transaction, and
freeze (status becomes BUILT); once BUILT, return the stored list. -/
def atcBuildGroup (env : Env) (a : AtcState) :
    Except String (AtcState × List TransactionWithSigner) :=
  match a.status with
  | .building =>
    if a.transactions.length = 0 then .error "Cannot build a group with 0 transactions"
    else
      let txns := if a.transactions.length > 1 then assignGroupID env a.transactions
        else a.transactions
      .ok ({ a with transactions := txns, status := .built }, txns)
  | .built => .ok (a, a.transactions)

/-- `ts.txn.group = undefined`: strip the group tag. -/
def stripGroup (ts : TransactionWithSigner) : TransactionWithSigner :=
  { ts with txn := { ts.txn with group := none } }

/-- `AlgokitComposer.buildAtc` (composer.ts lines 276-288): build the
inner composer's group, drop each group tag, and record the last
transaction's id against the ABI method when one is registered. -/
def buildAtc (env : Env) (st : MState) (a : AtcState) :
    Except String (MState × List TransactionWithSigner) :=
  match atcBuildGroup env a with
  | .error e => .error e
  | .ok (a1, group) =>
    let txnWithSigners := group.map stripGroup
    let st1 := match mapGetNat a1.methodCalls (group.length - 1) with
      | some m =>
        match txnWithSigners.getLast? with
        | some last => mapSetStr st (env.txID last.txn) m
        | none => st
      | none => st
    .ok (st1, txnWithSigners)

/-- The arguments `buildMethodCall` forwards to
`AtomicTransactionComposer.addMethodCall` (spreading `...params` plus the
resolved signer and method arguments). -/
structure InnerMethodCall where
  appID : Nat
  onComplete : Nat
  method : ABIMethod
  methodArgs : List ABIArgument
  sender : String
  signer : Signer
  note : Option Bytes
  lease : Option Bytes
  rekeyTo : Option String

/-- The transaction-typed entries of a resolved method-argument list. -/
def txnArgsOf (l : List ABIArgument) : List TransactionWithSigner :=
  l.filterMap (fun a => match a with
    | .txnWithSigner t => some t
    | .value _ => none)

/-- The plain-value entries of a resolved method-argument list. -/
def valueArgsOf (l : List ABIArgument) : List JsVal :=
  l.filterMap (fun a => match a with
    | .value v => some v
    | .txnWithSigner _ => none)

/-- The ABI encoding of a plain method argument, via the opaque encoder. -/
def encodeJsVal (env : Env) (v : JsVal) : Bytes :=
  env.abiEncode (match v with
    | .bytes bs => bs
    | .num n => [n]
    | .bigint i => [i.natAbs]
    | .bool b => [if b then 1 else 0]
    | .str _ => []
    | .arr _ => []
    | .txnArg _ => [])

/-- The application-call transaction `addMethodCall` constructs for the
method call itself: its app args are the method selector followed by the
encoded value arguments. -/
def methodCallApplTxn (env : Env) (sp : SuggestedParams) (c : InnerMethodCall) :
    Transaction :=
  { sender := c.sender,
    payload := .applMethodCall c.appID c.onComplete c.method.name
      (env.methodSelector c.method :: (valueArgsOf c.methodArgs).map (encodeJsVal env)),
    fee := sp.fee, firstRound := sp.firstRound, lastRound := sp.lastRound,
    note := c.note, lease := c.lease, rekeyTo := c.rekeyTo }

/-- `AtomicTransactionComposer.addMethodCall`: requires BUILDING status,
checks the group size bound and that the number of resolved arguments
matches the method's declared arguments; then appends the
transaction-typed arguments in order, followed by the method-call
application transaction, and records the method against the index of that
last transaction. -/
def atcAddMethodCall (env : Env) (sp : SuggestedParams) (c : InnerMethodCall)
    (a : AtcState) : Except String AtcState :=
  if a.status ≠ .building then
    .error "Cannot add transactions when composer status is not BUILDING"
  else if a.transactions.length + methodTxnCount c.method > MAX_GROUP_SIZE then
    .error "Adding additional transactions exceeds the maximum atomic group size"
  else if c.methodArgs.length ≠ c.method.args.length then
    .error "Incorrect number of method arguments"
  else
    let txns := a.transactions ++ txnArgsOf c.methodArgs
      ++ [⟨methodCallApplTxn env sp c, c.signer⟩]
    .ok
      { a with
        transactions := txns
        methodCalls := a.methodCalls ++ [(txns.length - 1, c.method)] }

/-! ### The method call expander (`buildMethodCall`, composer.ts lines 323-397) -/

/-- One resolved-accumulator state of the argument loop:
`(txnMethodMap, methodArgs, index, argOffset)`. -/
abbrev ResolveAcc := MState × List ABIArgument × Nat × Nat

/-- The body of the `params.args?.forEach((arg, i) => ...)` loop of
`buildMethodCall`. A plain ABI value is pushed through unchanged. Otherwise
the declared argument type at `i + argOffset` is looked up (an
out-of-range access reads `.type` of `undefined` and faults); when it is a
transaction-reference type, the intent is built by the matching per-kind
builder — a nested method call (`nested` is the recursive
`buildMethodCall` at one less recursion depth) contributes all of its
expanded transactions and shifts `argOffset` by their count minus one.
Errors abort the whole loop, as a thrown exception does in the source. -/
def resolveOne (env : Env) (sp : SuggestedParams)
    (nested : MState → CommonTxnParams → Nat → Option Nat → ABIMethod →
      Option (List JsVal) → Except String (MState × List TransactionWithSigner))
    (m : ABIMethod) (sgn : Signer)
    (racc : Except String ResolveAcc) (arg : JsVal) : Except String ResolveAcc :=
  match racc with
  | .error e => .error e
  | .ok (st, acc, i, off) =>
    if isAbiValue arg then .ok (st, acc ++ [.value arg], i + 1, off)
    else
      match m.args.get? (i + off) with
      | none => .error "TypeError: cannot read the declared argument type"
      | some spec =>
        if abiTransactionTypes.contains spec.type then
          match arg with
          | .txnArg t =>
            match t with
            | .methodCall c appID oc m2 args2 =>
              match nested st c appID oc m2 args2 with
              | .error e => .error e
              | .ok (st1, ts) =>
                .ok (st1, acc ++ ts.map ABIArgument.txnWithSigner, i + 1,
                  off + (ts.length - 1))
            | .appCall p =>
              match buildAppCall env p sp with
              | .error e => .error e
              | .ok txn => .ok (st, acc ++ [.txnWithSigner ⟨txn, sgn⟩], i + 1, off)
            | .pay p =>
              match buildPayment env p sp with
              | .error e => .error e
              | .ok txn => .ok (st, acc ++ [.txnWithSigner ⟨txn, sgn⟩], i + 1, off)
            | .assetOptIn p =>
              match buildAssetTransfer env
                  { toCommonTxnParams := p.toCommonTxnParams, assetID := p.assetID,
                    «to» := p.sender, amount := 0 } sp with
              | .error e => .error e
              | .ok txn => .ok (st, acc ++ [.txnWithSigner ⟨txn, sgn⟩], i + 1, off)
            | .assetCreate p =>
              match buildAssetCreate env p sp with
              | .error e => .error e
              | .ok txn => .ok (st, acc ++ [.txnWithSigner ⟨txn, sgn⟩], i + 1, off)
            | .assetConfig p =>
              match buildAssetConfig env p sp with
              | .error e => .error e
              | .ok txn => .ok (st, acc ++ [.txnWithSigner ⟨txn, sgn⟩], i + 1, off)
            | .assetDestroy p =>
              match buildAssetDestroy env p sp with
              | .error e => .error e
              | .ok txn => .ok (st, acc ++ [.txnWithSigner ⟨txn, sgn⟩], i + 1, off)
            | .assetFreeze p =>
              match buildAssetFreeze env p sp with
              | .error e => .error e
              | .ok txn => .ok (st, acc ++ [.txnWithSigner ⟨txn, sgn⟩], i + 1, off)
            | .assetTransfer p =>
              match buildAssetTransfer env p sp with
              | .error e => .error e
              | .ok txn => .ok (st, acc ++ [.txnWithSigner ⟨txn, sgn⟩], i + 1, off)
            | .keyReg p =>
              match buildKeyReg env p sp with
              | .error e => .error e
              | .ok txn => .ok (st, acc ++ [.txnWithSigner ⟨txn, sgn⟩], i + 1, off)
            | .txnWithSigner _ _ => .error "Unsupported method arg transaction type"
            | .atcTxn _ => .error "Unsupported method arg transaction type"
          | _ => .error "Unsupported method arg transaction type"
        else .error "Unsupported method arg"

/-- The whole argument-resolution loop of `buildMethodCall`, as a fold of
`resolveOne` over the argument list. -/
def resolveMethodArgs (env : Env) (sp : SuggestedParams)
    (nested : MState → CommonTxnParams → Nat → Option Nat → ABIMethod →
      Option (List JsVal) → Except String (MState × List TransactionWithSigner))
    (m : ABIMethod) (sgn : Signer) (st : MState) (l : List JsVal) :
    Except String ResolveAcc :=
  l.foldl (resolveOne env sp nested m sgn) (.ok (st, [], 0, 0))

/-- `buildMethodCall`: resolve the arguments, then assemble the method
call on a fresh isolated `AtomicTransactionComposer` via `addMethodCall`
and normalise the result through `buildAtc`. The `fuel` bounds the nesting
depth of method-call arguments; every theorem quantifies over it. -/
def buildMethodCall (env : Env) (sp : SuggestedParams) :
    Nat → MState → CommonTxnParams → Nat → Option Nat → ABIMethod →
      Option (List JsVal) → Except String (MState × List TransactionWithSigner)
  | 0, _, _, _, _, _, _ => .error "Method call nesting too deep"
  | fuel + 1, st, common, appID, onComplete, method, args =>
    let sgn := common.signer.getD (env.getSigner common.sender)
    match resolveMethodArgs env sp (buildMethodCall env sp fuel) method sgn st
        (args.getD []) with
    | .error e => .error e
    | .ok (st1, methodArgs, _, _) =>
      match atcAddMethodCall env sp
          { appID := appID, onComplete := onComplete.getD 0, method := method,
            methodArgs := methodArgs, sender := common.sender,
            signer := common.signer.getD (env.getSigner common.sender),
            note := common.note, lease := common.lease, rekeyTo := common.rekeyTo }
          {} with
      | .error e => .error e
      | .ok atc1 => buildAtc env st1 atc1

/-! ### The group assembler (`buildTxn`, `buildGroup`) and execution driver -/

/-- `buildTxn` (composer.ts lines 549-604): dispatch one intent to its
builder, producing one or more transactions with their signer
(`txn.signer ?? this.getSigner(txn.sender)`). -/
def buildTxn (env : Env) (sp : SuggestedParams) (fuel : Nat) (st : MState) (t : Txn) :
    Except String (MState × List TransactionWithSigner) :=
  match t with
  | .txnWithSigner txn signer => .ok (st, [⟨txn, signer⟩])
  | .atcTxn a => buildAtc env st a
  | .methodCall common appID onComplete method args =>
    buildMethodCall env sp fuel st common appID onComplete method args
  | .pay p =>
    match buildPayment env p sp with
    | .error e => .error e
    | .ok txn => .ok (st, [⟨txn, p.signer.getD (env.getSigner p.sender)⟩])
  | .assetCreate p =>
    match buildAssetCreate env p sp with
    | .error e => .error e
    | .ok txn => .ok (st, [⟨txn, p.signer.getD (env.getSigner p.sender)⟩])
  | .appCall p =>
    match buildAppCall env p sp with
    | .error e => .error e
    | .ok txn => .ok (st, [⟨txn, p.signer.getD (env.getSigner p.sender)⟩])
  | .assetConfig p =>
    match buildAssetConfig env p sp with
    | .error e => .error e
    | .ok txn => .ok (st, [⟨txn, p.signer.getD (env.getSigner p.sender)⟩])
  | .assetDestroy p =>
    match buildAssetDestroy env p sp with
    | .error e => .error e
    | .ok txn => .ok (st, [⟨txn, p.signer.getD (env.getSigner p.sender)⟩])
  | .assetFreeze p =>
    match buildAssetFreeze env p sp with
    | .error e => .error e
    | .ok txn => .ok (st, [⟨txn, p.signer.getD (env.getSigner p.sender)⟩])
  | .assetTransfer p =>
    match buildAssetTransfer env p sp with
    | .error e => .error e
    | .ok txn => .ok (st, [⟨txn, p.signer.getD (env.getSigner p.sender)⟩])
  | .assetOptIn p =>
    match buildAssetTransfer env
        { toCommonTxnParams := p.toCommonTxnParams, assetID := p.assetID,
          «to» := p.sender, amount := 0 } sp with
    | .error e => .error e
    | .ok txn => .ok (st, [⟨txn, p.signer.getD (env.getSigner p.sender)⟩])
  | .keyReg p =>
    match buildKeyReg env p sp with
    | .error e => .error e
    | .ok txn => .ok (st, [⟨txn, p.signer.getD (env.getSigner p.sender)⟩])

/-- The state of one `AlgokitComposer` instance: the txid-keyed method
map, the pending intents, and the instance's own atomic composer. -/
structure ComposerState where
  txnMethodMap : MState := []
  txns : List Txn := []
  atc : AtcState := {}

/-- A freshly constructed composer. -/
def newComposer : ComposerState := {}

/-- `addPayment`. -/
def addPayment (st : ComposerState) (p : PayTxnParams) : ComposerState :=
  { st with txns := st.txns ++ [.pay p] }

/-- `addAssetOptIn`. -/
def addAssetOptIn (st : ComposerState) (p : AssetOptInParams) : ComposerState :=
  { st with txns := st.txns ++ [.assetOptIn p] }

/-- `addAssetTransfer`. -/
def addAssetTransfer (st : ComposerState) (p : AssetTransferParams) : ComposerState :=
  { st with txns := st.txns ++ [.assetTransfer p] }

/-- `addMethodCall`. -/
def addMethodCall (st : ComposerState) (common : CommonTxnParams) (appID : Nat)
    (onComplete : Option Nat) (method : ABIMethod) (args : Option (List JsVal)) :
    ComposerState :=
  { st with txns := st.txns ++ [.methodCall common appID onComplete method args] }

/-- The `this.txns.forEach(txn => txnWithSigners.push(...this.buildTxn(...)))`
loop of `buildGroup`, threading the txid-keyed method map; a thrown error
aborts the loop. -/
def buildAll (env : Env) (sp : SuggestedParams) (fuel : Nat) :
    MState × List TransactionWithSigner → List Txn →
    Except String (MState × List TransactionWithSigner)
  | acc, [] => .ok acc
  | acc, t :: rest =>
    match buildTxn env sp fuel acc.1 t with
    | .error e => .error e
    | .ok (st1, built) => buildAll env sp fuel (st1, acc.2 ++ built) rest

/-- The `txnWithSigners.forEach(ts => this.atc.addTransaction(ts))` loop
of `buildGroup`. -/
def addAllToAtc : AtcState → List TransactionWithSigner → Except String AtcState
  | a, [] => .ok a
  | a, ts :: rest =>
    match atcAddTransaction a ts with
    | .error e => .error e
    | .ok a1 => addAllToAtc a1 rest

/-- `buildGroup` after the suggested-parameters fetch (composer.ts lines
610-629): build every intent in order, add the flattened list to the
instance's atomic composer, recompute the index-keyed method-call map
from the txid-keyed one, and freeze the group. -/
def buildGroupPure (env : Env) (sp : SuggestedParams) (fuel : Nat) (st : ComposerState) :
    Except String (ComposerState × List TransactionWithSigner) :=
  match buildAll env sp fuel (st.txnMethodMap, []) st.txns with
  | .error e => .error e
  | .ok (mmap, txnWithSigners) =>
    match addAllToAtc st.atc txnWithSigners with
    | .error e => .error e
    | .ok atc1 =>
      let methodCalls := txnWithSigners.enum.filterMap
        (fun p => (mapGetStr mmap (env.txID p.2.txn)).map (fun m => (p.1, m)))
      let atc2 := { atc1 with methodCalls := methodCalls }
      match atcBuildGroup env atc2 with
      | .error e => .error e
      | .ok (atc3, group) =>
        .ok ({ st with txnMethodMap := mmap, atc := atc3 }, group)

/-- `buildGroup` (composer.ts lines 607-630). Its first action — before
any validation — is the suggested-parameters network fetch, so the fetch
event precedes whatever the rest of the build produces. -/
def buildGroupRun (env : Env) (fetch : Nat → SuggestedParams) (fuel : Nat)
    (st : ComposerState) :
    List NetEvent × Except String (ComposerState × List TransactionWithSigner) :=
  ([.fetchParams], buildGroupPure env (fetch 0) fuel st)

/-- `execute` (composer.ts lines 633-654), up to the hand-off to the
external submission collaborator: build the group; when no explicit
`maxRoundsToWaitForConfirmation` is supplied, compute the wait bound as
the fold of `Math.max` over the group's last-valid rounds minus the
`firstRound` of a freshly fetched set of parameters. Returns the built
group and the wait bound passed on to submission. -/
def execute (env : Env) (fetch : Nat → SuggestedParams) (fuel : Nat) (st : ComposerState)
    (maxRoundsToWaitForConfirmation : Option Int) :
    Except String (ComposerState × List TransactionWithSigner × Int) :=
  match buildGroupPure env (fetch 0) fuel st with
  | .error e => .error e
  | .ok (st1, group) =>
    let waitRounds : Int :=
      match maxRoundsToWaitForConfirmation with
      | some w => w
      | none =>
        let lastRound : Nat := group.foldl (fun mx ts => max ts.txn.lastRound mx) 0
        (lastRound : Int) - ((fetch 1).firstRound : Int)
    .ok (st1, group, waitRounds)

/-! ### Intent accessors used by the fee-policy theorems -/

/-- The common parameters of an intent, when it has them. -/
def Txn.commonOf : Txn → Option CommonTxnParams
  | .pay p => some p.toCommonTxnParams
  | .assetCreate p => some p.toCommonTxnParams
  | .assetConfig p => some p.toCommonTxnParams
  | .assetFreeze p => some p.toCommonTxnParams
  | .assetDestroy p => some p.toCommonTxnParams
  | .assetTransfer p => some p.toCommonTxnParams
  | .assetOptIn p => some p.toCommonTxnParams
  | .appCall p => some p.toCommonTxnParams
  | .keyReg p => some p.toCommonTxnParams
  | .methodCall c _ _ _ _ => some c
  | .txnWithSigner _ _ => none
  | .atcTxn _ => none

/-- Whether an intent's transaction is produced through
`commonTxnBuildStep` (true for the nine parameterised kinds; method
calls, pre-built transactions and external groups bypass it). -/
def Txn.usesCommonBuildStep : Txn → Bool
  | .pay _ => true
  | .assetCreate _ => true
  | .assetConfig _ => true
  | .assetFreeze _ => true
  | .assetDestroy _ => true
  | .assetTransfer _ => true
  | .assetOptIn _ => true
  | .appCall _ => true
  | .keyReg _ => true
  | .methodCall _ _ _ _ _ => false
  | .txnWithSigner _ _ => false
  | .atcTxn _ => false

/-- The asset-transfer intent that `buildTxn` substitutes for an asset
opt-in: same common fields and asset id, recipient the sender, amount
zero. -/
def assetOptInToTransfer (p : AssetOptInParams) : AssetTransferParams :=
  { toCommonTxnParams := p.toCommonTxnParams, assetID := p.assetID,
    «to» := p.sender, amount := 0 }

/-! ## Concrete instances used by witnesses and counterexamples -/

/-- A concrete environment for witnesses: every transaction is estimated
at 100 bytes, every address signs with signer `0`, transaction ids are
the sender address. -/
def envT : Env :=
  { estimateSize := fun _ => 100, getSigner := fun _ => 0,
    txID := fun t => t.sender, computeGroupID := fun l => l.length,
    abiEncode := fun b => b, methodSelector := fun _ => [0] }

/-- Network parameters with a zero per-byte fee (the common mainnet
situation, which makes the minimum fee apply). -/
def spT : SuggestedParams := { fee := 0, firstRound := 5, lastRound := 99 }

/-- Advanced network parameters, one round later. -/
def spT2 : SuggestedParams := { fee := 0, firstRound := 6, lastRound := 100 }

/-! ## Projection lemmas for the common build step -/

theorem applyLease_firstRound (p : CommonTxnParams) (t : Transaction) :
    (applyLease p t).firstRound = t.firstRound := by
  unfold applyLease; split <;> rfl

theorem applyLease_lastRound (p : CommonTxnParams) (t : Transaction) :
    (applyLease p t).lastRound = t.lastRound := by
  unfold applyLease; split <;> rfl

theorem applyRekey_firstRound (p : CommonTxnParams) (t : Transaction) :
    (applyRekey p t).firstRound = t.firstRound := by
  unfold applyRekey; split <;> first | rfl | (split <;> rfl)

theorem applyRekey_lastRound (p : CommonTxnParams) (t : Transaction) :
    (applyRekey p t).lastRound = t.lastRound := by
  unfold applyRekey; split <;> first | rfl | (split <;> rfl)

theorem applyNote_firstRound (p : CommonTxnParams) (t : Transaction) :
    (applyNote p t).firstRound = t.firstRound := by
  unfold applyNote; split <;> rfl

theorem applyNote_lastRound (p : CommonTxnParams) (t : Transaction) :
    (applyNote p t).lastRound = t.lastRound := by
  unfold applyNote; split <;> rfl

theorem applyFirstValid_firstRound (p : CommonTxnParams) (t : Transaction) :
    (applyFirstValid p t).firstRound =
      match p.firstValidRound with
      | some fv => if fv = 0 then t.firstRound else fv
      | none => t.firstRound := by
  unfold applyFirstValid; split <;> first | rfl | (split <;> rfl)

theorem applyLastValid_firstRound (p : CommonTxnParams) (t : Transaction) :
    (applyLastValid p t).firstRound = t.firstRound := by
  unfold applyLastValid; split <;> first | rfl | (split <;> rfl)

theorem applyLastValid_lastRound (p : CommonTxnParams) (t : Transaction) :
    (applyLastValid p t).lastRound =
      match p.lastValidRound with
      | some lv =>
        if lv = 0 then t.firstRound + p.validityWindow.getD defaultValidityWindow else lv
      | none => t.firstRound + p.validityWindow.getD defaultValidityWindow := by
  unfold applyLastValid; split <;> first | rfl | (split <;> rfl)

/-- The first-valid round after the common field-setting steps: the
explicit round when nonzero, otherwise the round the sdk constructor took
from the network parameters. -/
theorem setCommonFields_firstRound (p : CommonTxnParams) (t : Transaction) :
    (setCommonFields p t).firstRound =
      match p.firstValidRound with
      | some fv => if fv = 0 then t.firstRound else fv
      | none => t.firstRound := by
  unfold setCommonFields
  rw [applyLastValid_firstRound, applyFirstValid_firstRound,
    applyNote_firstRound, applyRekey_firstRound, applyLease_firstRound]

/-- A successful `commonTxnBuildStep` only changes the fee of the
field-set transaction. -/
theorem commonTxnBuildStep_ok_shape (env : Env) (params : CommonTxnParams)
    (txn0 : Transaction) (sp : SuggestedParams) (txn1 : Transaction)
    (h : commonTxnBuildStep env params txn0 sp = .ok txn1) :
    ∃ fee, txn1 = { setCommonFields params txn0 with fee := fee } := by
  simp only [commonTxnBuildStep] at h
  repeat' split at h
  all_goals try exact Except.noConfusion h
  all_goals exact ⟨_, (Except.ok.inj h).symm⟩

/-- A successful `commonTxnBuildStep` without a flat fee computes
`estimateSize * feePerByte || ALGORAND_MIN_TX_FEE`, plus the extra fee. -/
theorem commonTxnBuildStep_ok_fee (env : Env) (params : CommonTxnParams)
    (txn0 : Transaction) (sp : SuggestedParams) (txn1 : Transaction)
    (hflat : params.flatFee = none)
    (h : commonTxnBuildStep env params txn0 sp = .ok txn1) :
    txn1.fee = (if env.estimateSize (setCommonFields params txn0) * sp.fee = 0
        then ALGORAND_MIN_TX_FEE
        else env.estimateSize (setCommonFields params txn0) * sp.fee)
      + params.extraFee.getD 0 := by
  simp only [commonTxnBuildStep] at h
  repeat' split at h
  all_goals try exact Except.noConfusion h
  all_goals cases Except.ok.inj h
  all_goals simp_all

/-- A successful `commonTxnBuildStep` keeps the rounds computed by the
field-setting steps. -/
theorem commonTxnBuildStep_ok_rounds (env : Env) (params : CommonTxnParams)
    (txn0 : Transaction) (sp : SuggestedParams) (txn1 : Transaction)
    (h : commonTxnBuildStep env params txn0 sp = .ok txn1) :
    txn1.firstRound = (setCommonFields params txn0).firstRound ∧
    txn1.lastRound = (setCommonFields params txn0).lastRound := by
  obtain ⟨fee, rfl⟩ := commonTxnBuildStep_ok_shape env params txn0 sp txn1 h
  exact ⟨rfl, rfl⟩

/-! ## Claim C1 -/

/-- C1 (amended): for an intent without a flat fee, the common build step
sets the fee to estimated-size × fee-per-byte when that product is
nonzero, and to the network minimum fee only when the product is zero,
plus the extra fee when given; the result is guaranteed to be at least
the network minimum only in the zero-product case (the source computes
`estimateSize() * fee || ALGORAND_MIN_TX_FEE`, not a maximum). -/
theorem c1_fee_formula (env : Env) (params : CommonTxnParams) (txn0 : Transaction)
    (sp : SuggestedParams) (txn1 : Transaction)
    (hflat : params.flatFee = none)
    (h : commonTxnBuildStep env params txn0 sp = .ok txn1) :
    txn1.fee = (if env.estimateSize (setCommonFields params txn0) * sp.fee = 0
        then ALGORAND_MIN_TX_FEE
        else env.estimateSize (setCommonFields params txn0) * sp.fee)
      + params.extraFee.getD 0 ∧
    (env.estimateSize (setCommonFields params txn0) * sp.fee = 0 →
      ALGORAND_MIN_TX_FEE ≤ txn1.fee) :=
  have hf := commonTxnBuildStep_ok_fee env params txn0 sp txn1 hflat h
  ⟨hf, fun hz => by rw [hf, if_pos hz]; exact Nat.le_add_right _ _⟩

/-- An environment whose size estimate makes the per-byte fee product
positive but smaller than the minimum fee. -/
def envC1 : Env := { envT with estimateSize := fun _ => 200 }

/-- Network parameters with a fee of one microalgo per byte. -/
def spC1 : SuggestedParams := { fee := 1, firstRound := 5, lastRound := 99 }

/-- A payment intent with no fee fields set. -/
def pC1 : PayTxnParams := { sender := "A", «to» := "B", amount := 1 }

/-- C1 is false as stated: with an estimated size of 200 bytes and a
fee-per-byte of 1, the computed fee is 200 — strictly below the network
minimum of 1000 and different from
`max(estimated-size × fee-per-byte, minimum)`. -/
theorem c1_counterexample :
    (buildPayment envC1 pC1 spC1).toOption.map Transaction.fee = some 200 ∧
    200 < ALGORAND_MIN_TX_FEE ∧
    (200 : Nat) ≠
      max (envC1.estimateSize (setCommonFields pC1.toCommonTxnParams (makePaymentTxn pC1 spC1))
        * spC1.fee) ALGORAND_MIN_TX_FEE :=
  ⟨rfl, by decide, by decide⟩

/-- A payment intent with only an extra fee set. -/
def pC1w : PayTxnParams := { sender := "A", «to» := "B", amount := 1, extraFee := some 7 }

/-- The transaction `pC1w` builds under `envC1`/`spC1`. -/
def txnC1w : Transaction :=
  { sender := "A", payload := .pay "B" 1, fee := 207, firstRound := 5, lastRound := 15 }

/-- Witness for `c1_fee_formula` at a concrete input. -/
theorem c1_witness :
    pC1w.toCommonTxnParams.flatFee = none ∧
    commonTxnBuildStep envC1 pC1w.toCommonTxnParams (makePaymentTxn pC1w spC1) spC1
      = .ok txnC1w ∧
    (txnC1w.fee = (if envC1.estimateSize
          (setCommonFields pC1w.toCommonTxnParams (makePaymentTxn pC1w spC1)) * spC1.fee = 0
        then ALGORAND_MIN_TX_FEE
        else envC1.estimateSize
          (setCommonFields pC1w.toCommonTxnParams (makePaymentTxn pC1w spC1)) * spC1.fee)
      + pC1w.toCommonTxnParams.extraFee.getD 0 ∧
    (envC1.estimateSize (setCommonFields pC1w.toCommonTxnParams (makePaymentTxn pC1w spC1))
        * spC1.fee = 0 →
      ALGORAND_MIN_TX_FEE ≤ txnC1w.fee)) :=
  ⟨rfl, rfl,
    c1_fee_formula envC1 pC1w.toCommonTxnParams (makePaymentTxn pC1w spC1) spC1 txnC1w rfl rfl⟩

/-! ## Claim C8 -/

/-- C8 (amended): the built transaction's last-valid round equals the
explicitly given last round when that round is nonzero; otherwise (absent
or given as zero) it equals the first-valid round plus the explicit
validity window when given, else plus the default window of 10 rounds. -/
theorem c8_last_valid_rule (env : Env) (params : CommonTxnParams) (txn0 : Transaction)
    (sp : SuggestedParams) (txn1 : Transaction)
    (h : commonTxnBuildStep env params txn0 sp = .ok txn1) :
    (∀ lv, params.lastValidRound = some lv → lv ≠ 0 → txn1.lastRound = lv) ∧
    ((params.lastValidRound = none ∨ params.lastValidRound = some 0) →
      txn1.lastRound = txn1.firstRound + params.validityWindow.getD defaultValidityWindow) := by
  obtain ⟨hfr, hlr⟩ := commonTxnBuildStep_ok_rounds env params txn0 sp txn1 h
  constructor
  · intro lv hlv hne
    rw [hlr]
    unfold setCommonFields
    rw [applyLastValid_lastRound, hlv]
    simp [hne]
  · intro hcase
    rw [hlr, hfr]
    unfold setCommonFields
    rw [applyLastValid_lastRound, applyLastValid_firstRound]
    rcases hcase with hnone | hzero
    · rw [hnone]
    · rw [hzero]
      simp

/-- A payment intent whose explicit last-valid round is `0`. -/
def pC8 : PayTxnParams :=
  { sender := "A", «to» := "B", amount := 1, lastValidRound := some 0 }

/-- C8 is false as stated: an explicitly given last round of `0` is not
used verbatim — the built transaction's last round becomes
first-round + default window (15), not 0. -/
theorem c8_counterexample :
    pC8.lastValidRound = some 0 ∧
    (buildPayment envT pC8 spT).toOption.map Transaction.lastRound = some 15 ∧
    ¬((buildPayment envT pC8 spT).toOption.map Transaction.lastRound = some 0) :=
  ⟨rfl, rfl, by decide⟩

/-- A payment intent with an explicit nonzero last-valid round. -/
def pC8w : PayTxnParams :=
  { sender := "A", «to» := "B", amount := 1, lastValidRound := some 42 }

/-- The transaction `pC8w` builds under `envT`/`spT`. -/
def txnC8w : Transaction :=
  { sender := "A", payload := .pay "B" 1, fee := 1000, firstRound := 5, lastRound := 42 }

/-- Witness for `c8_last_valid_rule` at a concrete input. -/
theorem c8_witness :
    commonTxnBuildStep envT pC8w.toCommonTxnParams (makePaymentTxn pC8w spT) spT
      = .ok txnC8w ∧
    ((∀ lv, pC8w.toCommonTxnParams.lastValidRound = some lv → lv ≠ 0 →
        txnC8w.lastRound = lv) ∧
      ((pC8w.toCommonTxnParams.lastValidRound = none ∨
          pC8w.toCommonTxnParams.lastValidRound = some 0) →
        txnC8w.lastRound = txnC8w.firstRound +
          pC8w.toCommonTxnParams.validityWindow.getD defaultValidityWindow)) :=
  ⟨rfl, c8_last_valid_rule envT pC8w.toCommonTxnParams (makePaymentTxn pC8w spT) spT txnC8w rfl⟩

/-! ## Claim C10 -/

/-- C10: an explicit `firstValidRound` of `0` is ignored (the round the
sdk constructor took from the network parameters is kept), and an
explicit `lastValidRound` of `0` makes the last round fall back to
first round + validity window rather than `0`. -/
theorem c10_zero_rounds (env : Env) (params : CommonTxnParams) (txn0 : Transaction)
    (sp : SuggestedParams) (txn1 : Transaction)
    (h : commonTxnBuildStep env params txn0 sp = .ok txn1) :
    (params.firstValidRound = some 0 → txn1.firstRound = txn0.firstRound) ∧
    (params.lastValidRound = some 0 →
      txn1.lastRound = txn1.firstRound + params.validityWindow.getD defaultValidityWindow) := by
  obtain ⟨hfr, hlr⟩ := commonTxnBuildStep_ok_rounds env params txn0 sp txn1 h
  constructor
  · intro h0
    rw [hfr, setCommonFields_firstRound, h0]
    simp
  · intro h0
    rw [hlr, hfr]
    unfold setCommonFields
    rw [applyLastValid_lastRound, applyLastValid_firstRound, h0]
    simp

/-- A payment intent giving both rounds explicitly as `0`. -/
def pC10 : PayTxnParams :=
  { sender := "A", «to» := "B", amount := 1,
    firstValidRound := some 0, lastValidRound := some 0 }

/-- The transaction `pC10` builds under `envT`/`spT`: the network first
round 5 is kept and the last round is 5 + 10. -/
def txnC10 : Transaction :=
  { sender := "A", payload := .pay "B" 1, fee := 1000, firstRound := 5, lastRound := 15 }

/-- Witness for `c10_zero_rounds` at a concrete input. -/
theorem c10_witness :
    commonTxnBuildStep envT pC10.toCommonTxnParams (makePaymentTxn pC10 spT) spT
      = .ok txnC10 ∧
    ((pC10.toCommonTxnParams.firstValidRound = some 0 →
        txnC10.firstRound = (makePaymentTxn pC10 spT).firstRound) ∧
      (pC10.toCommonTxnParams.lastValidRound = some 0 →
        txnC10.lastRound = txnC10.firstRound +
          pC10.toCommonTxnParams.validityWindow.getD defaultValidityWindow)) :=
  ⟨rfl, c10_zero_rounds envT pC10.toCommonTxnParams (makePaymentTxn pC10 spT) spT txnC10 rfl⟩

/-! ## Claim C4 -/

/-- An application-call intent describing a creation: no app id, both
programs supplied. -/
def pC4 : AppCallParams :=
  { sender := "A", appID := none, approvalProgram := some [1], clearProgram := some [2] }

/-- C4: the application-call builder never returns a creation
transaction. At the creation input `pC4` (app id absent, both programs
supplied) the built transaction's payload is a plain application call
with app index 0 — the creation transaction computed inside the
`!params.appID` branch is unconditionally overwritten by the assignment
that follows it (composer.ts line 457) — and an application-call payload
is distinct from every creation payload. -/
theorem c4_creation_overwritten :
    buildAppCall envT pC4 spT =
      .ok { sender := "A", payload := TxnPayload.applCall 0 0 [],
            fee := 1000, firstRound := 5, lastRound := 15 } ∧
    (∀ oc ap cp aargs lu lb gu gb,
      TxnPayload.applCall 0 0 [] ≠ TxnPayload.applCreate oc ap cp aargs lu lb gu gb) :=
  ⟨rfl, fun _ _ _ _ _ _ _ _ h => TxnPayload.noConfusion h⟩

/-! ## Claim C5 -/

/-- A method whose single declared argument is a plain (non-transaction)
ABI type. -/
def mC5 : ABIMethod := { name := "useBytes", args := [{ type := "byte[]" }] }

/-- Common parameters for the C5 method-call intent. -/
def cC5 : CommonTxnParams := { sender := "A" }

/-- C5: a byte-array argument is NOT passed through — `typeof` of a
`Uint8Array` is `"object"`, never the string `"Uint8Array"` the source
compares against, so `isAbiValue` rejects it and the expander faults with
`Unsupported method arg` instead of forwarding the value. -/
theorem c5_byte_array_rejected :
    jsTypeof (JsVal.bytes [1, 2, 3]) = "object" ∧
    isAbiValue (JsVal.bytes [1, 2, 3]) = false ∧
    buildMethodCall envT spT 2 [] cC5 5 none mC5 (some [JsVal.bytes [1, 2, 3]])
      = .error "Unsupported method arg" :=
  ⟨rfl, rfl, rfl⟩

/-! ## Claim C6 -/

/-- The payment intent of the double-build scenario. -/
def pW : PayTxnParams := { sender := "A", «to» := "B", amount := 100 }

/-- A composer holding the single payment intent `pW`. -/
def stW : ComposerState := { txns := [Txn.pay pW] }

/-- The transaction `pW` builds under `envT`/`spT`. -/
def txnW : Transaction :=
  { sender := "A", payload := .pay "B" 100, fee := 1000, firstRound := 5, lastRound := 15 }

/-- The composer state after the first successful build: the underlying
atomic composer is frozen (BUILT) and still holds the transaction. -/
def stW1 : ComposerState :=
  { txnMethodMap := [], txns := [Txn.pay pW],
    atc := { transactions := [⟨txnW, 0⟩], methodCalls := [], status := .built } }

/-- C6: building twice on an unchanged intent list does not succeed. The
first `buildGroup` returns the single-payment group and freezes the
instance's atomic composer; the second build — even with advanced network
parameters — fails because the transactions are re-added to the already
BUILT composer. -/
theorem c6_second_build_fails :
    buildGroupPure envT spT 2 stW = .ok (stW1, [⟨txnW, 0⟩]) ∧
    buildGroupPure envT spT2 2 stW1
      = .error "Cannot add transactions when composer status is not BUILDING" :=
  ⟨rfl, rfl⟩

/-! ## Claim C7 -/

/-- C7: an asset opt-in intent builds exactly the output of the
asset-transfer intent with the same common fields and asset id, recipient
equal to the sender, and amount zero. -/
theorem c7_optin_equals_zero_transfer (env : Env) (sp : SuggestedParams) (fuel : Nat)
    (st : MState) (p : AssetOptInParams) :
    buildTxn env sp fuel st (Txn.assetOptIn p)
      = buildTxn env sp fuel st (Txn.assetTransfer (assetOptInToTransfer p)) := rfl

/-! ## Claim C3 -/

/-- With both `flatFee` and `extraFee` present, the common build step
fails with the cannot-set-both error. -/
theorem commonTxnBuildStep_both_fees (env : Env) (params : CommonTxnParams)
    (txn0 : Transaction) (sp : SuggestedParams)
    (hflat : params.flatFee.isSome = true) (hextra : params.extraFee.isSome = true) :
    commonTxnBuildStep env params txn0 sp = .error "Cannot set both flatFee and extraFee" := by
  simp only [commonTxnBuildStep]
  rw [if_pos (show (params.flatFee.isSome && params.extraFee.isSome) = true by
    rw [hflat, hextra]; rfl)]

/-- Every intent that is built through the common build step and has both
fee fields set fails with the cannot-set-both error (for an application
call, provided its creation precondition is satisfiable so that the
missing-program check does not fire first). -/
theorem buildTxn_both_fees (env : Env) (sp : SuggestedParams) (fuel : Nat) (mm : MState)
    (t : Txn) (c : CommonTxnParams)
    (huses : t.usesCommonBuildStep = true)
    (hc : t.commonOf = some c)
    (hflat : c.flatFee.isSome = true) (hextra : c.extraFee.isSome = true)
    (happ : ∀ p, t = Txn.appCall p →
      p.appID.getD 0 ≠ 0 ∨ (p.approvalProgram.isSome ∧ p.clearProgram.isSome)) :
    buildTxn env sp fuel mm t = .error "Cannot set both flatFee and extraFee" := by
  cases t with
  | pay p =>
    injection hc with hc; subst hc
    have hb := commonTxnBuildStep_both_fees env p.toCommonTxnParams (makePaymentTxn p sp) sp
      hflat hextra
    simp [buildTxn, buildPayment, hb]
  | assetCreate p =>
    injection hc with hc; subst hc
    have hb := commonTxnBuildStep_both_fees env p.toCommonTxnParams (makeAssetCreateTxn p sp) sp
      hflat hextra
    simp [buildTxn, buildAssetCreate, hb]
  | assetConfig p =>
    injection hc with hc; subst hc
    have hb := commonTxnBuildStep_both_fees env p.toCommonTxnParams (makeAssetConfigTxn p sp) sp
      hflat hextra
    simp [buildTxn, buildAssetConfig, hb]
  | assetFreeze p =>
    injection hc with hc; subst hc
    have hb := commonTxnBuildStep_both_fees env p.toCommonTxnParams (makeAssetFreezeTxn p sp) sp
      hflat hextra
    simp [buildTxn, buildAssetFreeze, hb]
  | assetDestroy p =>
    injection hc with hc; subst hc
    have hb := commonTxnBuildStep_both_fees env p.toCommonTxnParams (makeAssetDestroyTxn p sp) sp
      hflat hextra
    simp [buildTxn, buildAssetDestroy, hb]
  | assetTransfer p =>
    injection hc with hc; subst hc
    have hb := commonTxnBuildStep_both_fees env p.toCommonTxnParams (makeAssetTransferTxn p sp) sp
      hflat hextra
    simp [buildTxn, buildAssetTransfer, hb]
  | assetOptIn p =>
    injection hc with hc; subst hc
    have hb : buildAssetTransfer env
        { toCommonTxnParams := p.toCommonTxnParams, assetID := p.assetID,
          «to» := p.sender, amount := 0 } sp
        = .error "Cannot set both flatFee and extraFee" :=
      commonTxnBuildStep_both_fees env _ _ sp hflat hextra
    simp [buildTxn, hb]
  | keyReg p =>
    injection hc with hc; subst hc
    have hb : buildKeyReg env p sp = .error "Cannot set both flatFee and extraFee" := by
      unfold buildKeyReg
      split <;> exact commonTxnBuildStep_both_fees env _ _ sp hflat hextra
    simp [buildTxn, hb]
  | appCall p =>
    injection hc with hc; subst hc
    have hb : buildAppCall env p sp = .error "Cannot set both flatFee and extraFee" := by
      unfold buildAppCall
      by_cases h0 : p.appID.getD 0 = 0
      · rw [if_pos h0]
        rcases happ p rfl with hne | ⟨ha, hcl⟩
        · exact absurd h0 hne
        · obtain ⟨ap, hap⟩ := Option.isSome_iff_exists.mp ha
          obtain ⟨cp, hcp⟩ := Option.isSome_iff_exists.mp hcl
          rw [hap, hcp]
          exact commonTxnBuildStep_both_fees env _ _ sp hflat hextra
      · rw [if_neg h0]
        exact commonTxnBuildStep_both_fees env _ _ sp hflat hextra
    simp [buildTxn, hb]
  | methodCall c2 appID oc m args => simp [Txn.usesCommonBuildStep] at huses
  | txnWithSigner txn signer => simp [Txn.usesCommonBuildStep] at huses
  | atcTxn a => simp [Txn.usesCommonBuildStep] at huses

/-- Splitting the intent-building loop at a list boundary. -/
theorem buildAll_append (env : Env) (sp : SuggestedParams) (fuel : Nat)
    (l1 l2 : List Txn) (acc : MState × List TransactionWithSigner) :
    buildAll env sp fuel acc (l1 ++ l2) =
      match buildAll env sp fuel acc l1 with
      | .error e => .error e
      | .ok acc1 => buildAll env sp fuel acc1 l2 := by
  induction l1 generalizing acc with
  | nil => rfl
  | cons x xs ih =>
    simp only [List.cons_append, buildAll]
    cases hx : buildTxn env sp fuel acc.1 x with
    | error e => rfl
    | ok r =>
      obtain ⟨st1, built⟩ := r
      exact ih _

/-- C3 (amended): for every intent built via the common build step whose
variant-specific precondition holds, with both a flat fee and an extra
fee set, and with every intent before it building successfully,
`buildGroup` fails with the cannot-set-both error — but only after the
suggested-parameters fetch, which is unconditionally the first step of
`buildGroup` and hence the one network call that precedes the failure. -/
theorem c3_both_fees_fail_after_fetch (env : Env) (fetch : Nat → SuggestedParams)
    (fuel : Nat) (mmap : MState) (atc0 : AtcState) (pre rest : List Txn) (t : Txn)
    (c : CommonTxnParams) (acc1 : MState × List TransactionWithSigner)
    (huses : t.usesCommonBuildStep = true)
    (hc : t.commonOf = some c)
    (hflat : c.flatFee.isSome = true) (hextra : c.extraFee.isSome = true)
    (happ : ∀ p, t = Txn.appCall p →
      p.appID.getD 0 ≠ 0 ∨ (p.approvalProgram.isSome ∧ p.clearProgram.isSome))
    (hpre : buildAll env (fetch 0) fuel (mmap, []) pre = .ok acc1) :
    buildGroupRun env fetch fuel
        { txnMethodMap := mmap, txns := pre ++ t :: rest, atc := atc0 }
      = ([.fetchParams], .error "Cannot set both flatFee and extraFee") := by
  have hstep : buildAll env (fetch 0) fuel acc1 (t :: rest)
      = .error "Cannot set both flatFee and extraFee" := by
    show (match buildTxn env (fetch 0) fuel acc1.1 t with
      | .error e => Except.error e
      | .ok (st1, built) => buildAll env (fetch 0) fuel (st1, acc1.2 ++ built) rest) = _
    rw [buildTxn_both_fees env (fetch 0) fuel acc1.1 t c huses hc hflat hextra happ]
  have hfold : buildAll env (fetch 0) fuel (mmap, []) (pre ++ t :: rest)
      = .error "Cannot set both flatFee and extraFee" := by
    rw [buildAll_append, hpre]
    exact hstep
  unfold buildGroupRun buildGroupPure
  rw [hfold]

/-- A payment intent with flat fee `0` and extra fee `5` both set (the
spec's own scenario). -/
def pC3 : PayTxnParams :=
  { sender := "A", «to» := "B", amount := 1, flatFee := some 0, extraFee := some 5 }

/-- A composer holding the single both-fees payment intent. -/
def stC3 : ComposerState := { txns := [Txn.pay pC3] }

/-- C3 is false as stated: building the group with a both-fees intent
does fail with the cannot-set-both error, but the failure is preceded by
the suggested-parameters fetch — the recorded network-event trace before
the failure is `[fetchParams]`, not empty. -/
theorem c3_counterexample :
    buildGroupRun envT (fun _ => spT) 1 stC3
      = ([.fetchParams], .error "Cannot set both flatFee and extraFee") ∧
    ([NetEvent.fetchParams] : List NetEvent) ≠ [] :=
  ⟨rfl, by decide⟩

/-! ## Claim C2 -/

/-- An error accumulator passes through the whole argument loop. -/
theorem foldl_resolveOne_error (env : Env) (sp : SuggestedParams)
    (nested : MState → CommonTxnParams → Nat → Option Nat → ABIMethod →
      Option (List JsVal) → Except String (MState × List TransactionWithSigner))
    (m : ABIMethod) (sgn : Signer) (e : String) (l : List JsVal) :
    l.foldl (resolveOne env sp nested m sgn) (.error e) = .error e := by
  induction l with
  | nil => rfl
  | cons x xs ih =>
    rw [List.foldl_cons]
    exact ih

/-- One successful loop step only appends to the resolved-argument
accumulator. -/
theorem resolveOne_ok_extends (env : Env) (sp : SuggestedParams)
    (nested : MState → CommonTxnParams → Nat → Option Nat → ABIMethod →
      Option (List JsVal) → Except String (MState × List TransactionWithSigner))
    (m : ABIMethod) (sgn : Signer) (r0 r : ResolveAcc) (arg : JsVal)
    (h : resolveOne env sp nested m sgn (.ok r0) arg = .ok r) :
    ∃ ext, r.2.1 = r0.2.1 ++ ext := by
  obtain ⟨st, acc, i, off⟩ := r0
  simp only [resolveOne] at h
  repeat' split at h
  all_goals try exact Except.noConfusion h
  all_goals cases Except.ok.inj h
  all_goals exact ⟨_, rfl⟩

/-- The whole argument loop only appends to the resolved-argument
accumulator. -/
theorem foldl_resolveOne_extends (env : Env) (sp : SuggestedParams)
    (nested : MState → CommonTxnParams → Nat → Option Nat → ABIMethod →
      Option (List JsVal) → Except String (MState × List TransactionWithSigner))
    (m : ABIMethod) (sgn : Signer) (l : List JsVal) :
    ∀ (r0 r : ResolveAcc),
      l.foldl (resolveOne env sp nested m sgn) (.ok r0) = .ok r →
      ∃ ext, r.2.1 = r0.2.1 ++ ext := by
  induction l with
  | nil =>
    intro r0 r h
    cases Except.ok.inj h
    exact ⟨[], (List.append_nil _).symm⟩
  | cons x xs ih =>
    intro r0 r h
    rw [List.foldl_cons] at h
    cases hx : resolveOne env sp nested m sgn (.ok r0) x with
    | error e =>
      rw [hx, foldl_resolveOne_error] at h
      exact Except.noConfusion h
    | ok r1 =>
      rw [hx] at h
      obtain ⟨e1, he1⟩ := resolveOne_ok_extends env sp nested m sgn r0 r1 x hx
      obtain ⟨e2, he2⟩ := ih r1 r h
      exact ⟨e1 ++ e2, by rw [he2, he1, List.append_assoc]⟩

/-- `txnArgsOf` distributes over append. -/
theorem txnArgsOf_append (a b : List ABIArgument) :
    txnArgsOf (a ++ b) = txnArgsOf a ++ txnArgsOf b := by
  unfold txnArgsOf
  rw [List.filterMap_append]

/-- The transaction entries of a list of wrapped transactions are the
transactions themselves. -/
theorem txnArgsOf_map_txnWithSigner (ts : List TransactionWithSigner) :
    txnArgsOf (ts.map ABIArgument.txnWithSigner) = ts := by
  induction ts with
  | nil => rfl
  | cons x xs ih =>
    simp only [List.map_cons]
    show x :: txnArgsOf (xs.map ABIArgument.txnWithSigner) = x :: xs
    rw [ih]

/-- Stamping a group id and then stripping it is stripping alone. -/
theorem map_strip_set (gid : Nat) (l : List TransactionWithSigner) :
    (l.map (fun t => { t with txn := { t.txn with group := some gid } })).map stripGroup
      = l.map stripGroup := by
  induction l with
  | nil => rfl
  | cons x xs ih =>
    simp only [List.map_cons]
    rw [ih]
    rfl

/-- `addMethodCall` on a fresh atomic composer, when the size and
argument-count checks pass. -/
theorem atcAddMethodCall_fresh (env : Env) (sp : SuggestedParams) (c : InnerMethodCall)
    (hsize : methodTxnCount c.method ≤ MAX_GROUP_SIZE)
    (hlen : c.methodArgs.length = c.method.args.length) :
    atcAddMethodCall env sp c {} = .ok
      ({ transactions := txnArgsOf c.methodArgs
           ++ [(⟨methodCallApplTxn env sp c, c.signer⟩ : TransactionWithSigner)],
         methodCalls := [((txnArgsOf c.methodArgs
           ++ [(⟨methodCallApplTxn env sp c, c.signer⟩ : TransactionWithSigner)]).length - 1,
           c.method)],
         status := .building } : AtcState) := by
  unfold atcAddMethodCall
  rw [if_neg (show ¬(({} : AtcState).status ≠ AtcStatus.building) by simp),
    if_neg (show ¬(({} : AtcState).transactions.length + methodTxnCount c.method
      > MAX_GROUP_SIZE) by
        show ¬(([] : List TransactionWithSigner).length + methodTxnCount c.method
          > MAX_GROUP_SIZE)
        simp only [List.length_nil, Nat.zero_add]
        omega),
    if_neg (show ¬(c.methodArgs.length ≠ c.method.args.length) by simp [hlen])]
  rfl

/-- A BUILDING atomic composer with a nonempty transaction list builds
its stored list with the group tags stripped. -/
theorem buildAtc_ok_building (env : Env) (st : MState) (a : AtcState)
    (hst : a.status = .building) (hne : a.transactions ≠ []) :
    ∃ st4, buildAtc env st a = .ok (st4, a.transactions.map stripGroup) := by
  unfold buildAtc atcBuildGroup
  rw [hst, if_neg (show ¬(a.transactions.length = 0) by
    rw [List.length_eq_zero]; exact hne)]
  by_cases hl : a.transactions.length > 1
  · rw [if_pos hl]
    have hmap : (assignGroupID env a.transactions).map stripGroup
        = a.transactions.map stripGroup := by
      unfold assignGroupID
      exact map_strip_set _ _
    dsimp only
    rw [hmap]
    exact ⟨_, rfl⟩
  · rw [if_neg hl]
    exact ⟨_, rfl⟩

/-- C2 (amended): when a method-call intent's argument at some position
is itself a method call that expands to the transactions `ts` (N = length
of `ts`), the remaining arguments are resolved with the argument offset
increased by N − 1, and the built group for the outer intent consists of
the resolved argument transactions — in which `ts` appear contiguously in
their produced order, after the transactions of earlier arguments and
before those of later ones — followed by (though not necessarily
immediately preceded by) the outer method-call transaction, which comes
last. -/
theorem c2_nested_method_call
    (env : Env) (sp : SuggestedParams) (fuel : Nat)
    (outerCommon : CommonTxnParams) (outerAppID : Nat) (outerOC : Option Nat) (m : ABIMethod)
    (sgn : Signer) (st0 st1 st2 st3 : MState)
    (pre rest : List JsVal)
    (cN : CommonTxnParams) (appN : Nat) (ocN : Option Nat) (mN : ABIMethod)
    (argsN : Option (List JsVal))
    (accPre finalArgs : List ABIArgument) (offPre iF offF : Nat)
    (ts : List TransactionWithSigner) (spec : ABIArgSpec)
    (hsgn : sgn = outerCommon.signer.getD (env.getSigner outerCommon.sender))
    (hpre : List.foldl (resolveOne env sp (buildMethodCall env sp fuel) m sgn)
        (.ok (st0, [], 0, 0)) pre = .ok (st1, accPre, pre.length, offPre))
    (hnested : buildMethodCall env sp fuel st1 cN appN ocN mN argsN = .ok (st2, ts))
    (_hts : ts ≠ [])
    (hspec : m.args.get? (pre.length + offPre) = some spec)
    (htype : abiTransactionTypes.contains spec.type = true)
    (hrest : List.foldl (resolveOne env sp (buildMethodCall env sp fuel) m sgn)
        (.ok (st2, accPre ++ ts.map ABIArgument.txnWithSigner, pre.length + 1,
          offPre + (ts.length - 1))) rest = .ok (st3, finalArgs, iF, offF))
    (hlen : finalArgs.length = m.args.length)
    (hsize : methodTxnCount m ≤ MAX_GROUP_SIZE) :
    resolveMethodArgs env sp (buildMethodCall env sp fuel) m sgn st0
        (pre ++ JsVal.txnArg (Txn.methodCall cN appN ocN mN argsN) :: rest)
      = List.foldl (resolveOne env sp (buildMethodCall env sp fuel) m sgn)
          (.ok (st2, accPre ++ ts.map ABIArgument.txnWithSigner, pre.length + 1,
            offPre + (ts.length - 1))) rest ∧
    ∃ st4 ext outerTws,
      txnArgsOf finalArgs = txnArgsOf accPre ++ ts ++ ext ∧
      buildMethodCall env sp (fuel + 1) st0 outerCommon outerAppID outerOC m
          (some (pre ++ JsVal.txnArg (Txn.methodCall cN appN ocN mN argsN) :: rest))
        = .ok (st4, (txnArgsOf accPre).map stripGroup ++ ts.map stripGroup
            ++ ext.map stripGroup ++ [outerTws]) := by
  have hab : isAbiValue (JsVal.txnArg (Txn.methodCall cN appN ocN mN argsN)) = false := rfl
  have hstep : resolveOne env sp (buildMethodCall env sp fuel) m sgn
      (.ok (st1, accPre, pre.length, offPre))
      (JsVal.txnArg (Txn.methodCall cN appN ocN mN argsN))
    = .ok (st2, accPre ++ ts.map ABIArgument.txnWithSigner, pre.length + 1,
        offPre + (ts.length - 1)) := by
    simp only [resolveOne, hab, hspec, htype, hnested]
    rw [if_neg (by simp), if_pos trivial]
  have ha : resolveMethodArgs env sp (buildMethodCall env sp fuel) m sgn st0
      (pre ++ JsVal.txnArg (Txn.methodCall cN appN ocN mN argsN) :: rest)
    = List.foldl (resolveOne env sp (buildMethodCall env sp fuel) m sgn)
        (.ok (st2, accPre ++ ts.map ABIArgument.txnWithSigner, pre.length + 1,
          offPre + (ts.length - 1))) rest := by
    unfold resolveMethodArgs
    rw [List.foldl_append, hpre, List.foldl_cons, hstep]
  refine ⟨ha, ?_⟩
  obtain ⟨ext0, hext0⟩ := foldl_resolveOne_extends env sp (buildMethodCall env sp fuel) m sgn
    rest (st2, accPre ++ ts.map ABIArgument.txnWithSigner, pre.length + 1,
      offPre + (ts.length - 1)) (st3, finalArgs, iF, offF) hrest
  dsimp only at hext0
  have htargs : txnArgsOf finalArgs = txnArgsOf accPre ++ ts ++ txnArgsOf ext0 := by
    rw [hext0, txnArgsOf_append, txnArgsOf_append, txnArgsOf_map_txnWithSigner,
      List.append_assoc]
  have hfull : resolveMethodArgs env sp (buildMethodCall env sp fuel) m sgn st0
      (pre ++ JsVal.txnArg (Txn.methodCall cN appN ocN mN argsN) :: rest)
    = .ok (st3, finalArgs, iF, offF) := by
    rw [ha]
    exact hrest
  have hadd := atcAddMethodCall_fresh env sp
    { appID := outerAppID, onComplete := outerOC.getD 0, method := m,
      methodArgs := finalArgs, sender := outerCommon.sender, signer := sgn,
      note := outerCommon.note, lease := outerCommon.lease,
      rekeyTo := outerCommon.rekeyTo } hsize hlen
  obtain ⟨st4, hatc⟩ := buildAtc_ok_building env st3
    { transactions := txnArgsOf finalArgs
        ++ [(⟨methodCallApplTxn env sp
          { appID := outerAppID, onComplete := outerOC.getD 0, method := m,
            methodArgs := finalArgs, sender := outerCommon.sender, signer := sgn,
            note := outerCommon.note, lease := outerCommon.lease,
            rekeyTo := outerCommon.rekeyTo }, sgn⟩ : TransactionWithSigner)],
      methodCalls := [((txnArgsOf finalArgs
        ++ [(⟨methodCallApplTxn env sp
          { appID := outerAppID, onComplete := outerOC.getD 0, method := m,
            methodArgs := finalArgs, sender := outerCommon.sender, signer := sgn,
            note := outerCommon.note, lease := outerCommon.lease,
            rekeyTo := outerCommon.rekeyTo }, sgn⟩ : TransactionWithSigner)]).length - 1, m)],
      status := .building } rfl (by simp)
  refine ⟨st4, txnArgsOf ext0,
    stripGroup ⟨methodCallApplTxn env sp
      { appID := outerAppID, onComplete := outerOC.getD 0, method := m,
        methodArgs := finalArgs, sender := outerCommon.sender, signer := sgn,
        note := outerCommon.note, lease := outerCommon.lease,
        rekeyTo := outerCommon.rekeyTo }, sgn⟩, htargs, ?_⟩
  simp only [buildMethodCall]
  rw [← hsgn]
  simp only [Option.getD_some]
  rw [hfull]
  dsimp only
  rw [hadd]
  dsimp only
  rw [hatc]
  dsimp only at hatc ⊢
  rw [List.map_append, htargs, List.map_append, List.map_append]
  simp [List.append_assoc]

/-- The inner method of the nested scenario: no declared arguments. -/
def mI : ABIMethod := { name := "inner", args := [] }

/-- Common parameters for the nested scenarios. -/
def cI : CommonTxnParams := { sender := "A" }

/-- The single transaction the nested `inner` method call expands to. -/
def txnI : Transaction :=
  { sender := "A", payload := .applMethodCall 2 0 "inner" [[0]],
    fee := 0, firstRound := 5, lastRound := 99 }

/-- The outer method of the witness scenario: one transaction-typed
declared argument. -/
def mO1 : ABIMethod := { name := "outer", args := [{ type := "appl" }] }

/-- The outer method of the counterexample scenario: a transaction-typed
argument followed by a payment-typed argument. -/
def mO2 : ABIMethod :=
  { name := "outer", args := [{ type := "appl" }, { type := "pay" }] }

/-- The payment used as the second argument of the counterexample. -/
def pPay5 : PayTxnParams := { sender := "A", «to» := "B", amount := 5 }

/-- The arguments of the counterexample's outer call: a nested method
call followed by a payment intent. -/
def argsO : List JsVal :=
  [JsVal.txnArg (Txn.methodCall cI 2 none mI none), JsVal.txnArg (Txn.pay pPay5)]

/-- C2 is false as stated: in a method call whose nested-method-call
argument is followed by another transaction-typed argument, the group is
[nested sub-transaction, payment, outer call] — the transaction
immediately preceding the outer call's transaction is the payment, not
the nested call's sub-transaction. -/
theorem c2_counterexample :
    (buildMethodCall envT spT 2 [] cI 7 none mO2 (some argsO)).toOption.map
        (fun r => r.2.map (fun ts => ts.txn.payload))
      = some [TxnPayload.applMethodCall 2 0 "inner" [[0]], TxnPayload.pay "B" 5,
          TxnPayload.applMethodCall 7 0 "outer" [[0]]] ∧
    TxnPayload.pay "B" 5 ≠ TxnPayload.applMethodCall 2 0 "inner" [[0]] :=
  ⟨rfl, by decide⟩

/-- Witness for `c2_nested_method_call` at a concrete input. -/
theorem c2_witness :
    (0 : Signer) = cI.signer.getD (envT.getSigner cI.sender) ∧
    List.foldl (resolveOne envT spT (buildMethodCall envT spT 1) mO1 0)
        (.ok (([] : MState), ([] : List ABIArgument), 0, 0)) [] =
      .ok (([] : MState), ([] : List ABIArgument), (0 : Nat), (0 : Nat)) ∧
    buildMethodCall envT spT 1 [] cI 2 none mI none
      = .ok ([("A", mI)], [⟨txnI, 0⟩]) ∧
    ([⟨txnI, 0⟩] : List TransactionWithSigner) ≠ [] ∧
    mO1.args.get? (0 + 0) = some { type := "appl" } ∧
    abiTransactionTypes.contains "appl" = true ∧
    List.foldl (resolveOne envT spT (buildMethodCall envT spT 1) mO1 0)
        (.ok ([("A", mI)],
          ([] : List ABIArgument) ++ [⟨txnI, 0⟩].map ABIArgument.txnWithSigner,
          0 + 1, 0 + (1 - 1))) [] =
      .ok ([("A", mI)], [ABIArgument.txnWithSigner ⟨txnI, 0⟩], (1 : Nat), (0 : Nat)) ∧
    ([ABIArgument.txnWithSigner ⟨txnI, 0⟩] : List ABIArgument).length = mO1.args.length ∧
    methodTxnCount mO1 ≤ MAX_GROUP_SIZE ∧
    (resolveMethodArgs envT spT (buildMethodCall envT spT 1) mO1 0 []
        ([] ++ JsVal.txnArg (Txn.methodCall cI 2 none mI none) :: [])
      = List.foldl (resolveOne envT spT (buildMethodCall envT spT 1) mO1 0)
          (.ok ([("A", mI)],
            ([] : List ABIArgument) ++ [⟨txnI, 0⟩].map ABIArgument.txnWithSigner,
            0 + 1, 0 + (1 - 1))) [] ∧
      ∃ st4 ext outerTws,
        txnArgsOf [ABIArgument.txnWithSigner ⟨txnI, 0⟩]
          = txnArgsOf ([] : List ABIArgument) ++ [⟨txnI, 0⟩] ++ ext ∧
        buildMethodCall envT spT (1 + 1) [] cI 9 none mO1
            (some ([] ++ JsVal.txnArg (Txn.methodCall cI 2 none mI none) :: []))
          = .ok (st4, (txnArgsOf ([] : List ABIArgument)).map stripGroup
              ++ [⟨txnI, 0⟩].map stripGroup ++ ext.map stripGroup ++ [outerTws])) :=
  ⟨rfl, rfl, rfl, List.cons_ne_nil _ _, rfl, rfl, rfl, rfl, by decide,
    c2_nested_method_call envT spT 1 cI 9 none mO1 0 [] [] [("A", mI)] [("A", mI)]
      [] [] cI 2 none mI none [] [ABIArgument.txnWithSigner ⟨txnI, 0⟩] 0 1 0
      [⟨txnI, 0⟩] { type := "appl" } rfl rfl rfl (List.cons_ne_nil _ _) rfl rfl rfl rfl
      (by decide)⟩

/-! ## Claim C9 -/

/-- The `group.reduce((max, txn) => Math.max(txn.txn.lastRound, max), 0)`
fold dominates the start value and every element. -/
theorem foldl_lastRound_le (l : List TransactionWithSigner) (a : Nat) :
    a ≤ l.foldl (fun mx ts => max ts.txn.lastRound mx) a ∧
    ∀ ts ∈ l, ts.txn.lastRound ≤ l.foldl (fun mx ts => max ts.txn.lastRound mx) a := by
  induction l generalizing a with
  | nil => exact ⟨Nat.le_refl a, by simp⟩
  | cons x xs ih =>
    obtain ⟨h1, h2⟩ := ih (max x.txn.lastRound a)
    rw [List.foldl_cons]
    refine ⟨Nat.le_trans (Nat.le_max_right _ _) h1, ?_⟩
    intro ts hts
    rcases List.mem_cons.mp hts with rfl | hmem
    · exact Nat.le_trans (Nat.le_max_left _ _) h1
    · exact h2 ts hmem

/-- The last-round fold is the start value or one of the elements. -/
theorem foldl_lastRound_mem (l : List TransactionWithSigner) (a : Nat) :
    l.foldl (fun mx ts => max ts.txn.lastRound mx) a = a ∨
    ∃ ts ∈ l, l.foldl (fun mx ts => max ts.txn.lastRound mx) a = ts.txn.lastRound := by
  induction l generalizing a with
  | nil => exact .inl rfl
  | cons x xs ih =>
    rw [List.foldl_cons]
    rcases ih (max x.txn.lastRound a) with h | ⟨ts, hts, heq⟩
    · rcases Nat.le_total x.txn.lastRound a with hle | hle
      · left
        rw [h]
        exact Nat.max_eq_right hle
      · right
        refine ⟨x, List.mem_cons_self x xs, ?_⟩
        rw [h]
        exact Nat.max_eq_left hle
    · exact .inr ⟨ts, List.mem_cons_of_mem x hts, heq⟩

/-- C9: when `execute` is called without an explicit
`maxRoundsToWaitForConfirmation`, the computed wait bound equals the
maximum last-valid round over the built group's transactions minus the
first-valid round of the freshly fetched network parameters. -/
theorem c9_wait_bound (env : Env) (fetch : Nat → SuggestedParams) (fuel : Nat)
    (st st1 : ComposerState) (g : List TransactionWithSigner) (w : Int)
    (h : execute env fetch fuel st none = .ok (st1, g, w)) (hne : g ≠ []) :
    ∃ m, (∃ ts ∈ g, ts.txn.lastRound = m) ∧ (∀ ts ∈ g, ts.txn.lastRound ≤ m) ∧
      w = (m : Int) - ((fetch 1).firstRound : Int) := by
  unfold execute at h
  cases hb : buildGroupPure env (fetch 0) fuel st with
  | error e =>
    rw [hb] at h
    exact Except.noConfusion h
  | ok r =>
    rw [hb] at h
    obtain ⟨st1', g'⟩ := r
    have h2 := Except.ok.inj h
    simp only [Prod.mk.injEq] at h2
    obtain ⟨rfl, rfl, rfl⟩ := h2
    obtain ⟨h0, hall⟩ := foldl_lastRound_le g' 0
    rcases foldl_lastRound_mem g' 0 with hz | ⟨ts, hts, heq⟩
    · cases hg : g' with
      | nil => exact absurd hg hne
      | cons x xs =>
        subst hg
        refine ⟨_, ⟨x, List.mem_cons_self x xs, ?_⟩, hall, rfl⟩
        have hle := hall x (List.mem_cons_self x xs)
        omega
    · exact ⟨_, ⟨ts, hts, heq.symm⟩, hall, rfl⟩

/-- The fetch stream of the C9 witness: `spT` for the build, `spT2`
(first round 6) for the wait-bound computation. -/
def fetchW : Nat → SuggestedParams := fun n => if n = 0 then spT else spT2

/-- Witness for `c9_wait_bound` at a concrete input: one payment, last
valid 15, fresh first round 6, wait bound 9. -/
theorem c9_witness :
    execute envT fetchW 2 stW none = .ok (stW1, [⟨txnW, 0⟩], 9) ∧
    ([⟨txnW, 0⟩] : List TransactionWithSigner) ≠ [] ∧
    (∃ m, (∃ ts ∈ ([⟨txnW, 0⟩] : List TransactionWithSigner), ts.txn.lastRound = m) ∧
      (∀ ts ∈ ([⟨txnW, 0⟩] : List TransactionWithSigner), ts.txn.lastRound ≤ m) ∧
      (9 : Int) = (m : Int) - ((fetchW 1).firstRound : Int)) :=
  ⟨rfl, by decide,
    c9_wait_bound envT fetchW 2 stW stW1 [⟨txnW, 0⟩] 9 rfl (by decide)⟩

/-- Witness for `c3_both_fees_fail_after_fetch` at a concrete input. -/
theorem c3_witness :
    (Txn.pay pC3).usesCommonBuildStep = true ∧
    (Txn.pay pC3).commonOf = some pC3.toCommonTxnParams ∧
    pC3.toCommonTxnParams.flatFee.isSome = true ∧
    pC3.toCommonTxnParams.extraFee.isSome = true ∧
    buildAll envT spT 1 ([], []) [] = .ok ([], []) ∧
    buildGroupRun envT (fun _ => spT) 1
        { txnMethodMap := [], txns := [] ++ Txn.pay pC3 :: [], atc := {} }
      = ([.fetchParams], .error "Cannot set both flatFee and extraFee") :=
  ⟨rfl, rfl, rfl, rfl, rfl,
    c3_both_fees_fail_after_fetch envT (fun _ => spT) 1 [] {} [] []
      (Txn.pay pC3) pC3.toCommonTxnParams ([], []) rfl rfl rfl rfl
      (fun _ h => Txn.noConfusion h) rfl⟩

end Composer
